import Mathlib

/-!
# Verification of the memory-backend session engine

Shallow embedding of the card-matching ("memory") game engine from
`src/lib.rs` (module `memory`: `Memory`, `Card`, `Player`, `GameState`,
`Memory::new`, `Memory::add_new_player`, `Memory::pick_card`,
`Memory::next_turn`, `Memory::check_for_pair`, `sse_utils::send_sse`,
`icons::LINKS`) and from `src/handler.rs` (`join`, `ready`, `pick_card`,
`game_message`, `start_game`, `check_for_pair`, `create_new_player`).

Modelling conventions:
* Rust's `HashMap<String, Player>` is modelled as an association list
  `List (String × Player)`; the list order stands for the map's iteration
  order (fixed while the roster is unmodified), and inserting a fresh token
  appends at the end.
* Randomness (token generation, board shuffling) is modelled by passing the
  random value as an explicit parameter (the fresh token), respectively by
  quantifying over permutations of the unshuffled board.
* A Rust panic (an `unwrap()` on `None` or on a failed channel send) is
  modelled by `Option.none` as a function result, or by the explicit
  outcome `SendOutcome.crashed` for event delivery.
* Event broadcasts are recorded as a list of emitted `SseEvent`s in the
  order the corresponding `broadcast_sse`/`send_sse` calls happen.
-/

set_option maxHeartbeats 1000000
set_option maxRecDepth 10000

namespace MemoryBackend

/-- `GameState` from `src/lib.rs` (module `memory`). -/
inductive GameState where
  | Lobby
  | Running
  | Finished
deriving DecidableEq, Repr

/-- `Card` from `src/lib.rs`: image path plus flipped/gone flags
(`gone` is the "resolved" flag of the spec). -/
structure Card where
  img_path : String
  flipped : Bool
  gone : Bool
deriving DecidableEq, Repr

/-- `Card::new`: a fresh card is neither flipped nor gone. -/
def Card.new (img_path : String) : Card :=
  { img_path := img_path, flipped := false, gone := false }

/-- The server-sent events emitted by the engine
(`flipCard`, `hideCard`, `gameOver`, `turn`, `leaderboard`). -/
inductive SseEvent where
  | flipCard (card_id : Nat) (img_path : String)
  | hideCard (card_id : Nat)
  | gameOver (game_state : GameState)
  | turnUpdate (turn : Bool)
  | leaderboard (players : List (String × Nat × Bool × Bool))
deriving DecidableEq, Repr

/-- A `tokio::sync::mpsc::Sender` for SSE events, as seen by the engine:
it may be closed (receiver dropped), holds the queued events, and has the
fixed bound it was created with. -/
structure SseSender where
  closed : Bool
  queue : List SseEvent
  capacity : Nat
deriving DecidableEq, Repr

/-- The channel created in `handler.rs::game_message`:
`tokio::sync::mpsc::channel(2)` — fresh, open, empty, capacity 2. -/
def freshChannel : SseSender :=
  { closed := false, queue := [], capacity := 2 }

/-- `Player` from `src/lib.rs`. -/
structure Player where
  name : String
  points : Nat
  turn : Bool
  ready : Bool
  sender : Option SseSender
deriving DecidableEq, Repr

/-- `Player::new`: points 0, no turn, not ready, no subscription. -/
def Player.new (name : String) : Player :=
  { name := name, points := 0, turn := false, ready := false, sender := none }

/-- The rejection kinds of `src/lib.rs` (module `reject`). -/
inductive Rej where
  | NoGameExists
  | InvalidToken
  | InvalidMasterKey
  | InvalidCard
  | AlreadyExists
  | AlreadyRunning
  | NotYourTurn
  | NotYetRunning
  | AlreadyFlipped
deriving DecidableEq, Repr

instance {ε α : Type} [DecidableEq ε] [DecidableEq α] : DecidableEq (Except ε α) := fun x y =>
  match x, y with
  | Except.ok a, Except.ok b =>
      if h : a = b then isTrue (by rw [h]) else isFalse (fun hc => by cases hc; exact h rfl)
  | Except.error a, Except.error b =>
      if h : a = b then isTrue (by rw [h]) else isFalse (fun hc => by cases hc; exact h rfl)
  | Except.ok _, Except.error _ => isFalse (fun hc => by cases hc)
  | Except.error _, Except.ok _ => isFalse (fun hc => by cases hc)

/-- `Memory` from `src/lib.rs`: the session aggregate. -/
structure Memory where
  id : String
  players : List (String × Player)
  state : GameState
  cards : List Card
  current_turn : Nat
deriving DecidableEq, Repr

/-- `icons::LINKS` from `src/lib.rs`: the fixed 27-entry image list. -/
def LINKS : List String := [
  "https://www.zooplus.de/magazin/wp-content/uploads/2021/04/AdobeStock_175183320-1536x1023.jpeg",
  "https://www.thesportsman.com/media/images/admin/football/original/Ronaldo_WORLDIE.jpg",
  "https://ichef.bbci.co.uk/news/976/cpsprodpb/4B2E/production/_112764291_minecraft.jpg",
  "https://cdn-icons-png.flaticon.com/512/3069/3069172.png",
  "https://bgr.com/wp-content/uploads/2015/08/darth-vader.jpg",
  "https://external-content.duckduckgo.com/iu/?u=http%3A%2F%2Fbilder.4ever.eu%2Fdata%2Fdownload%2Ftiere%2Fhaschen%2Fhasen-154275.jpg&f=1&nofb=1&ipt=a5b5801561db52435e33491017f6aaa394b5460d4f5c3dc4f84c0af9ddb97695&ipo=images",
  "https://cdn-icons-png.flaticon.com/512/809/809052.png",
  "https://cdn-icons-png.flaticon.com/512/1998/1998610.png",
  "https://cdn-icons-png.flaticon.com/512/1864/1864470.png",
  "https://cdn-icons-png.flaticon.com/512/1998/1998713.png",
  "https://cdn-icons-png.flaticon.com/512/1998/1998627.png",
  "https://cdn-icons-png.flaticon.com/512/3196/3196017.png",
  "https://cdn-icons-png.flaticon.com/512/1067/1067840.png",
  "https://img1.cgtrader.com/items/4013852/70e58e37f4/large/stumble-guys-inferno-dragon-3d-model-stl.jpg",
  "https://cdn-icons-png.flaticon.com/512/2977/2977327.png",
  "https://cdn-icons-png.flaticon.com/512/1010/1010028.png",
  "https://cdn-icons-png.flaticon.com/512/1998/1998804.png",
  "https://cdn-icons-png.flaticon.com/512/1864/1864521.png",
  "https://cdn-icons-png.flaticon.com/512/826/826912.png",
  "http://www.nintendoworldreport.com/media/29905/4/32.jpg",
  "https://cdn-icons-png.flaticon.com/512/1998/1998679.png",
  "https://cdn-icons-png.flaticon.com/512/1864/1864473.png",
  "https://cdn-icons-png.flaticon.com/512/3975/3975047.png",
  "https://cdn-icons-png.flaticon.com/512/628/628341.png",
  "https://cdn-icons-png.flaticon.com/512/375/375105.png",
  "https://manga-mafia.de/media/catalog/product/cache/2/image/9df78eab33525d08d6e5fb8d27136e95/a/b/abydco456.jpg",
  "https://cdn.pixabay.com/photo/2022/07/09/22/16/michael-jordan-7311821_960_720.png"
]

/-- Board dimensions from `Memory::new` in `src/lib.rs`. -/
def columns : Nat := 9

/-- Board dimensions from `Memory::new` in `src/lib.rs`. -/
def rows : Nat := 6

/-- The card-building loop of `Memory::new` (`src/lib.rs`), before the
shuffle: for `i in 0..columns*rows` push `Card::new(LINKS[img])` and
increment `img` after every odd `i`. -/
def newCards : List Card :=
  ((List.range (columns * rows)).foldl
    (fun (acc : List Card × Nat) i =>
      (acc.1 ++ [Card.new (LINKS.getD acc.2 "")],
       if i % 2 != 0 then acc.2 + 1 else acc.2))
    (([] : List Card), 0)).1

/-- `Memory::new` from `src/lib.rs`, up to the shuffle: empty roster,
`Lobby` state, `current_turn = 0`.  The `cards.shuffle(&mut rng)` call is
modelled by quantifying over permutations of `newCards` in the theorems. -/
def Memory.new (id : String) : Memory :=
  { id := id
    players := []
    state := GameState.Lobby
    cards := newCards
    current_turn := 0 }

/-- `self.players.get(&token)` / `get_mut`: first entry with this token. -/
def getPlayer (ps : List (String × Player)) (token : String) : Option Player :=
  (ps.find? (fun kp => kp.1 == token)).map Prod.snd

/-- In-place mutation of the entry-with-this-token, as done through
`get_mut(&token)` on the Rust `HashMap`. -/
def setPlayer (ps : List (String × Player)) (token : String) (p : Player) :
    List (String × Player) :=
  ps.map (fun kp => if kp.1 == token then (kp.1, p) else kp)

/-- `self.players.values_mut().nth(n).unwrap().turn = true`: set the turn
flag of the player at position `n` of the iteration order (no-op when `n`
is out of range; the engine only reaches this with `n` in range). -/
def setNthTurn : List (String × Player) → Nat → List (String × Player)
  | [], _ => []
  | kp :: rest, 0 => (kp.1, { kp.2 with turn := true }) :: rest
  | kp :: rest, Nat.succ n => kp :: setNthTurn rest n

/-- The turn-advance formula of `Memory::next_turn` in `src/lib.rs`:
`(self.current_turn + 1) % self.players.len()`. -/
def nextIdx (current n : Nat) : Nat := (current + 1) % n

/-- `Memory::next_turn` from `src/lib.rs`: advance `current_turn`, give the
player now at that index the turn, and unflip every card.  `none` models
the panic on an empty roster (`% 0` and `nth(..).unwrap()`). -/
def Memory.next_turn (m : Memory) : Option Memory :=
  if m.players.length = 0 then none
  else
    let idx := nextIdx m.current_turn m.players.length
    some { m with
      current_turn := idx
      players := setNthTurn m.players idx
      cards := m.cards.map (fun c => { c with flipped := false }) }

/-- `Memory::check_for_pair` from `src/lib.rs`.  Returns
`(next, pair, player)`: on a match, increment the player's points; on a
mismatch, clear the player's turn; with no pending card, do nothing. -/
def check_for_pair (player : Player) (card : String) (other_card : Option String) :
    Bool × Bool × Player :=
  match other_card with
  | some oc =>
      if card == oc then (false, true, { player with points := player.points + 1 })
      else (true, false, { player with turn := false })
  | none => (false, false, player)

/-- The hide-notification emission of the pair loop in
`Memory::pick_card`: one `hideCard i` per flipped card, in index order
(`s` is the index of the first card of the sublist). -/
def hideEventsFrom : Nat → List Card → List SseEvent
  | _, [] => []
  | s, c :: rest =>
      (if c.flipped then [SseEvent.hideCard s] else []) ++ hideEventsFrom (s + 1) rest

/-- The card mutation of the pair loop in `Memory::pick_card`: every
flipped card becomes gone and unflipped. -/
def resolveFlippedCards (cards : List Card) : List Card :=
  cards.map (fun c => if c.flipped then { c with gone := true, flipped := false } else c)

/-- `Memory::add_new_player` from `src/lib.rs`.  Note that the duplicate
check is `self.players.contains_key(&name)`: it compares the requested
*name* against the *token* keys of the roster.  The fresh random token is
passed explicitly. -/
def Memory.add_new_player (m : Memory) (name : String) (token : String) :
    Memory × Except Rej String :=
  if (m.players.find? (fun kp => kp.1 == name)).isSome then
    (m, Except.error Rej.AlreadyExists)
  else
    ({ m with players := m.players ++ [(token, Player.new name)] }, Except.ok token)

/-- `Memory::pick_card` from `src/lib.rs`.  Returns the new session, the
emitted events in order, and the reply; `none` models the panic of
`self.players.get_mut(&token).unwrap()` on an unknown token (reached only
when the card itself was accepted). -/
def Memory.pick_card (m : Memory) (card_id : Nat) (token : String) :
    Option (Memory × List SseEvent × Except Rej String) :=
  let other_card_img_path := (m.cards.find? (fun c => c.flipped)).map (fun c => c.img_path)
  match m.cards[card_id]? with
  | none => some (m, [], Except.error Rej.InvalidCard)
  | some card =>
    if card.flipped || card.gone then
      some (m, [], Except.error Rej.AlreadyFlipped)
    else
      match getPlayer m.players token with
      | none => none
      | some player =>
        let r := check_for_pair player card.img_path other_card_img_path
        let m1 : Memory := { m with
          cards := m.cards.set card_id { card with flipped := true }
          players := setPlayer m.players token r.2.2 }
        let flipEv := [SseEvent.flipCard card_id card.img_path]
        let pr : Memory × List SseEvent :=
          if r.2.1 then
            let evs := hideEventsFrom 0 m1.cards
            let m2 : Memory := { m1 with cards := resolveFlippedCards m1.cards }
            if m2.cards.all (fun c => c.gone) then
              ({ m2 with state := GameState.Finished },
               evs ++ [SseEvent.gameOver GameState.Finished])
            else (m2, evs)
          else (m1, [])
        if r.1 then
          match pr.1.next_turn with
          | none => none
          | some m3 => some (m3, flipEv ++ pr.2, Except.ok "Success")
        else some (pr.1, flipEv ++ pr.2, Except.ok "Success")

/-- `sse_utils::send_sse` delivery outcome: delivered into the queue,
silently skipped because no subscription is attached, or crashed — the
code calls `.send(..).await.unwrap()`, which panics when the channel is
closed (the `SendError` case of a dropped receiver). -/
inductive SendOutcome where
  | delivered
  | skipped
  | crashed
deriving DecidableEq, Repr

/-- `tokio::sync::mpsc::Sender::send`: fails exactly when the receiver is
gone (channel closed); otherwise enqueues the event.  (A send on a *full*
bounded channel blocks until capacity is available — blocking has no
counterpart in this embedding and is discussed with claim C2.) -/
def mpsc_send (s : SseSender) (ev : SseEvent) : Except Unit SseSender :=
  if s.closed then Except.error () else Except.ok { s with queue := s.queue ++ [ev] }

/-- `sse_utils::send_sse` from `src/lib.rs` (textually duplicated in
`src/handler.rs`): skip when no channel is attached, otherwise
`send(..).await.unwrap()` — the `unwrap` turns a closed channel into a
panic (`SendOutcome.crashed`). -/
def send_sse (ev : SseEvent) (channel : Option SseSender) :
    SendOutcome × Option SseSender :=
  match channel with
  | none => (SendOutcome.skipped, none)
  | some sender =>
    match mpsc_send sender ev with
    | Except.ok s => (SendOutcome.delivered, some s)
    | Except.error _ => (SendOutcome.crashed, some sender)

/-- `sse_utils::broadcast_sse`: one `send_sse` per player, in order. -/
def broadcast_sse (ev : SseEvent) (channels : List (Option SseSender)) :
    List SendOutcome :=
  channels.map (fun ch => (send_sse ev ch).1)

/-- `handler.rs::create_new_player`: insert a new `Player::new(name)` under
the (explicitly passed) fresh random token; no duplicate-name check. -/
def create_new_player (m : Memory) (name : String) (token : String) : Memory × String :=
  ({ m with players := m.players ++ [(token, Player.new name)] }, token)

/-- `handler.rs::join`: allowed only in `Lobby` (else `AlreadyRunning`),
then `create_new_player` and return the token.  (The follow-up leaderboard
broadcast carries no session state and is omitted here.) -/
def join (m : Memory) (name : String) (token : String) : Memory × Except Rej String :=
  match m.state with
  | GameState.Lobby =>
      let r := create_new_player m name token
      (r.1, Except.ok r.2)
  | _ => (m, Except.error Rej.AlreadyRunning)

/-- `handler.rs::start_game`: set `state = Running` and give the player at
iteration position 0 the turn (plus a `turn` event to that player's own
channel, which carries no session state and is omitted here). -/
def start_game (m : Memory) : Memory :=
  { m with state := GameState.Running, players := setNthTurn m.players 0 }

/-- `handler.rs::ready`: unknown token fails `InvalidToken`; otherwise set
`ready = true`, and if every player is ready call `start_game` and reply
"Started", else reply "Success".  There is no check of the current
lifecycle state. -/
def ready (m : Memory) (token : String) : Memory × Except Rej String :=
  match getPlayer m.players token with
  | none => (m, Except.error Rej.InvalidToken)
  | some p =>
    let m1 : Memory := { m with players := setPlayer m.players token { p with ready := true } }
    if m1.players.all (fun kp => kp.2.ready) then
      (start_game m1, Except.ok "Started")
    else (m1, Except.ok "Success")

/-- `handler.rs::check_for_pair`: on a match increment points, on a
mismatch clear the acting player's turn; no turn advancement. -/
def handlerCheckForPair (player : Player) (card1 : Card) (other_card : Option Card) : Player :=
  match other_card with
  | some card2 =>
      if card1.img_path == card2.img_path then { player with points := player.points + 1 }
      else { player with turn := false }
  | none => player

/-- `handler.rs::pick_card`: the request-level pick.  Guards: `Running`
state (else `NotYetRunning`), known token (else `InvalidToken`), turn flag
(else `NotYourTurn`), card index in range (else `InvalidCard`), card not
flipped (else `AlreadyFlipped` — gone cards are *not* checked here).  Then
flip the card, run `handler.rs::check_for_pair`, and emit the flip event. -/
def handler_pick (m : Memory) (card_id : Nat) (token : String) :
    Memory × Except Rej Bool × List SseEvent :=
  match m.state with
  | GameState.Running =>
    match getPlayer m.players token with
    | none => (m, Except.error Rej.InvalidToken, [])
    | some p =>
      if !p.turn then (m, Except.error Rej.NotYourTurn, [])
      else
        let other_card := m.cards.find? (fun c => c.flipped)
        match m.cards[card_id]? with
        | none => (m, Except.error Rej.InvalidCard, [])
        | some card =>
          if card.flipped then (m, Except.error Rej.AlreadyFlipped, [])
          else
            let card1 : Card := { card with flipped := true }
            let player1 := handlerCheckForPair p card1 other_card
            ({ m with
                cards := m.cards.set card_id card1
                players := setPlayer m.players token player1 },
             Except.ok player1.turn,
             [SseEvent.flipCard card_id card1.img_path])
  | _ => (m, Except.error Rej.NotYetRunning, [])

/-- `handler.rs::game_message` (subscribe): create a fresh bounded channel
of capacity 2 and attach it via `players.get_mut(&token).unwrap()`; `none`
models the panic of that `unwrap` on an unknown token.  Nothing is pushed
onto the new channel. -/
def game_message (m : Memory) (token : String) : Option Memory :=
  match getPlayer m.players token with
  | none => none
  | some p =>
      some { m with players := setPlayer m.players token { p with sender := some freshChannel } }

/-! ## Concrete fixtures used by the witnesses -/

def c7Player : Player :=
  { name := "A", points := 0, turn := true, ready := true, sender := none }

def c7Session : Memory :=
  { id := "s", players := [("t", c7Player)], state := GameState.Running,
    cards := [{ img_path := "x", flipped := true, gone := false },
              { img_path := "y", flipped := false, gone := true }],
    current_turn := 0 }

def c3Player : Player :=
  { name := "A", points := 0, turn := true, ready := true, sender := none }

def c3CardA : Card := { img_path := "x", flipped := false, gone := false }

def c3CardB : Card := { img_path := "x", flipped := true, gone := false }

def c3Session : Memory :=
  { id := "s", players := [("t", c3Player)], state := GameState.Running,
    cards := [c3CardA, c3CardB], current_turn := 0 }

def c4PlayerA : Player :=
  { name := "A", points := 0, turn := true, ready := true, sender := none }

def c4PlayerB : Player :=
  { name := "B", points := 0, turn := false, ready := true, sender := none }

def c4CardX : Card := { img_path := "x", flipped := true, gone := false }

def c4CardY : Card := { img_path := "y", flipped := false, gone := false }

def c4Session : Memory :=
  { id := "s", players := [("ta", c4PlayerA), ("tb", c4PlayerB)],
    state := GameState.Running, cards := [c4CardX, c4CardY], current_turn := 0 }

/-! ## Concrete board facts (images of the unshuffled board) -/

/-- The unshuffled board has 54 slots. -/
theorem newCards_length : newCards.length = 54 := by decide

/-- Every image of the fixed image list occurs on exactly two slots of the
unshuffled board. -/
theorem newCards_count_links :
    ∀ l ∈ LINKS, newCards.countP (fun c => c.img_path == l) = 2 := by decide

/-- Every freshly created card is unflipped, unresolved, and drawn from
the fixed image list. -/
theorem newCards_fresh :
    ∀ c ∈ newCards, c.flipped = false ∧ c.gone = false ∧ c.img_path ∈ LINKS := by decide

/-- Every image id occurring on the unshuffled board occurs exactly
twice among the board's image ids. -/
theorem newCards_image_count :
    ∀ img ∈ newCards.map (fun c => c.img_path),
      (newCards.map (fun c => c.img_path)).count img = 2 := by decide

/-! ## Helper lemmas about the roster and board primitives -/

theorem getPlayer_setPlayer_self {ps : List (String × Player)} {t : String} {p : Player}
    (q : Player) (h : getPlayer ps t = some p) :
    getPlayer (setPlayer ps t q) t = some q := by
  induction ps with
  | nil => simp [getPlayer] at h
  | cons kp rest ih =>
    obtain ⟨k, a⟩ := kp
    have hmap : setPlayer ((k, a) :: rest) t q =
        (if (k == t) = true then (k, q) else (k, a)) :: setPlayer rest t q := rfl
    by_cases hk : (k == t) = true
    · rw [hmap, if_pos hk]
      unfold getPlayer
      rw [List.find?_cons_of_pos _ (by simpa using hk)]
      rfl
    · rw [hmap, if_neg hk]
      unfold getPlayer at h ⊢
      rw [List.find?_cons_of_neg _ (by simpa using hk)] at h
      rw [List.find?_cons_of_neg _ (by simpa using hk)]
      exact ih h

theorem length_setPlayer (ps : List (String × Player)) (t : String) (q : Player) :
    (setPlayer ps t q).length = ps.length := by
  simp [setPlayer]

theorem getElem?_setPlayer (ps : List (String × Player)) (t : String) (q : Player) (k : Nat) :
    (setPlayer ps t q)[k]? = (ps[k]?).map (fun kp => if kp.1 == t then (kp.1, q) else kp) := by
  simp [setPlayer, List.getElem?_map]

theorem length_setNthTurn (ps : List (String × Player)) (n : Nat) :
    (setNthTurn ps n).length = ps.length := by
  induction ps generalizing n with
  | nil => rfl
  | cons kp rest ih =>
    cases n with
    | zero => rfl
    | succ n => simp [setNthTurn, ih]

theorem getElem?_setNthTurn (ps : List (String × Player)) (n k : Nat) :
    (setNthTurn ps n)[k]? =
      (ps[k]?).map (fun kp => if k = n then (kp.1, { kp.2 with turn := true }) else kp) := by
  induction ps generalizing n k with
  | nil => simp [setNthTurn]
  | cons kp rest ih =>
    cases n with
    | zero =>
      cases k with
      | zero => simp [setNthTurn]
      | succ k => cases h : rest[k]? <;> simp [setNthTurn, h]
    | succ n =>
      cases k with
      | zero => simp [setNthTurn]
      | succ k => simpa [setNthTurn] using ih n k

theorem find?_flipped_of_unique (cards : List Card) (j : Nat) (cj : Card)
    (hj : cards[j]? = some cj) (hf : cj.flipped = true)
    (huniq : ∀ k ck, cards[k]? = some ck → ck.flipped = true → k = j) :
    cards.find? (fun c => c.flipped) = some cj := by
  induction cards generalizing j with
  | nil => simp at hj
  | cons c rest ih =>
    cases hcf : c.flipped with
    | true =>
      have h0 : (0 : Nat) = j := huniq 0 c (by simp) hcf
      rw [← h0] at hj
      simp only [List.getElem?_cons_zero, Option.some.injEq] at hj
      rw [List.find?_cons_of_pos _ hcf, hj]
    | false =>
      have hj0 : j ≠ 0 := by
        intro h
        rw [h] at hj
        simp only [List.getElem?_cons_zero, Option.some.injEq] at hj
        rw [← hj] at hf
        rw [hcf] at hf
        exact absurd hf (by simp)
      obtain ⟨j', rfl⟩ : ∃ j', j = j' + 1 := ⟨j - 1, by omega⟩
      simp only [List.getElem?_cons_succ] at hj
      have huniq' : ∀ k ck, rest[k]? = some ck → ck.flipped = true → k = j' := by
        intro k ck hk hkf
        have := huniq (k + 1) ck (by simpa using hk) hkf
        omega
      simp only [List.find?_cons, hcf]
      exact ih j' hj huniq'

theorem mem_hideEventsFrom (s : Nat) (cards : List Card) (j : Nat) (cj : Card)
    (hj : cards[j]? = some cj) (hf : cj.flipped = true) :
    SseEvent.hideCard (s + j) ∈ hideEventsFrom s cards := by
  induction cards generalizing s j with
  | nil => simp at hj
  | cons c rest ih =>
    cases j with
    | zero =>
      simp only [List.getElem?_cons_zero, Option.some.injEq] at hj
      subst hj
      simp [hideEventsFrom, hf]
    | succ j =>
      simp only [List.getElem?_cons_succ] at hj
      have := ih (s + 1) j hj
      have harith : s + 1 + j = s + (j + 1) := by omega
      rw [harith] at this
      simp only [hideEventsFrom, List.mem_append]
      exact Or.inr this

theorem iterate_nextIdx_eq (n : Nat) (c : Nat) (hc : c < n) :
    ∀ k, (fun x => nextIdx x n)^[k] c = (c + k) % n := by
  intro k
  induction k with
  | zero => simpa using (Nat.mod_eq_of_lt hc).symm
  | succ k ih =>
    rw [Function.iterate_succ_apply', ih]
    show ((c + k) % n + 1) % n = (c + (k + 1)) % n
    rw [Nat.mod_add_mod, Nat.add_assoc]

theorem iterate_nextIdx (n : Nat) (c : Nat) (hc : c < n) :
    (fun x => nextIdx x n)^[n] c = c := by
  rw [iterate_nextIdx_eq n c hc n, Nat.add_mod_right]
  exact Nat.mod_eq_of_lt hc

/-! ## Claim theorems -/

/-- C9: for every board produced by session creation (any permutation of
the deterministically built card list of `Memory::new`), every image id in
the multiset of card image ids appears in exactly two slots, and the total
number of slots is even. -/
theorem claim_C9 (id : String) (board : List Card)
    (hperm : board.Perm (Memory.new id).cards) :
    (∀ img ∈ board.map (fun c => c.img_path),
      (board.map (fun c => c.img_path)).count img = 2) ∧
    Even board.length := by
  have hp : (board.map (fun c => c.img_path)).Perm
      (newCards.map (fun c => c.img_path)) := hperm.map _
  refine ⟨fun img hmem => ?_, ?_⟩
  · rw [hp.count_eq]
    exact newCards_image_count img (hp.mem_iff.mp hmem)
  · rw [hperm.length_eq]
    show Even newCards.length
    exact ⟨27, by decide⟩

/-- C9 witness: the unshuffled board of a concrete session satisfies the
conclusion. -/
theorem claim_C9_witness :
    (∀ img ∈ (Memory.new "s1").cards.map (fun c => c.img_path),
      ((Memory.new "s1").cards.map (fun c => c.img_path)).count img = 2) ∧
    Even (Memory.new "s1").cards.length :=
  claim_C9 "s1" (Memory.new "s1").cards (List.Perm.refl _)

/-- C10: every session is created with a board of exactly 54 card slots
(9 columns by 6 rows, drawn as 27 distinct image pairs from the fixed
27-entry image list `LINKS`), every card initially unflipped and
unresolved, and the created card list does not depend on the session id. -/
theorem claim_C10 (id : String) (board : List Card)
    (hperm : board.Perm (Memory.new id).cards) :
    board.length = columns * rows ∧ columns = 9 ∧ rows = 6 ∧ board.length = 54 ∧
    (Memory.new id).cards = newCards ∧
    LINKS.length = 27 ∧ LINKS.Nodup ∧
    (∀ c ∈ board, c.flipped = false ∧ c.gone = false ∧ c.img_path ∈ LINKS) ∧
    (∀ l ∈ LINKS, board.countP (fun c => c.img_path == l) = 2) := by
  have hlen : board.length = newCards.length := hperm.length_eq
  refine ⟨by rw [hlen]; decide, rfl, rfl, by rw [hlen]; decide, rfl, by decide, by decide,
    fun c hc => ?_, fun l hl => ?_⟩
  · exact newCards_fresh c (hperm.subset hc)
  · rw [hperm.countP_eq]
    exact newCards_count_links l hl

/-- C10 witness: the unshuffled board of a concrete session satisfies the
conclusion. -/
theorem claim_C10_witness :
    (Memory.new "g").cards.length = columns * rows ∧ columns = 9 ∧ rows = 6 ∧
    (Memory.new "g").cards.length = 54 ∧
    (Memory.new "g").cards = newCards ∧
    LINKS.length = 27 ∧ LINKS.Nodup ∧
    (∀ c ∈ (Memory.new "g").cards,
      c.flipped = false ∧ c.gone = false ∧ c.img_path ∈ LINKS) ∧
    (∀ l ∈ LINKS, (Memory.new "g").cards.countP (fun c => c.img_path == l) = 2) :=
  claim_C10 "g" (Memory.new "g").cards (List.Perm.refl _)

/-- C1 (code bug): turn exclusivity fails on the code.  First conjunct:
in a Running session where the turn has moved to the second player, a
repeated all-ready `ready` call re-runs `start_game`, which sets the first
player's turn without clearing the current holder — two players hold the
turn while `state = Running`.  Second conjunct: the handler's mismatch
path (`handler.rs::check_for_pair`) clears the acting player's turn and
never advances the turn to anyone — zero players hold the turn while
`state = Running`. -/
theorem claim_C1 :
    (let A : Player := { name := "A", points := 0, turn := false, ready := true, sender := none }
     let B : Player := { name := "B", points := 0, turn := true, ready := true, sender := none }
     let m : Memory := { id := "s", players := [("ta", A), ("tb", B)],
                         state := GameState.Running, cards := [], current_turn := 1 }
     (ready m "ta").1.players.countP (fun kp => kp.2.turn) = 2 ∧
     (ready m "ta").1.state = GameState.Running) ∧
    (let A : Player := { name := "A", points := 0, turn := true, ready := true, sender := none }
     let B : Player := { name := "B", points := 0, turn := false, ready := true, sender := none }
     let m : Memory := { id := "s",
                         players := [("ta", A), ("tb", B)],
                         state := GameState.Running,
                         cards := [{ img_path := "x", flipped := true, gone := false },
                                   { img_path := "y", flipped := false, gone := false }],
                         current_turn := 0 }
     (handler_pick m 1 "ta").1.players.countP (fun kp => kp.2.turn) = 0 ∧
     (handler_pick m 1 "ta").1.state = GameState.Running) := by decide

/-- C2 (code bug): event delivery to an *absent* subscription is silently
skipped, but delivery to a *closed* channel is not — `send_sse` calls
`.send(..).await.unwrap()`, and the `unwrap` of the `SendError` panics. -/
theorem claim_C2 :
    (send_sse (SseEvent.hideCard 0)
        (some { closed := true, queue := [], capacity := 2 })).1 = SendOutcome.crashed ∧
    (send_sse (SseEvent.hideCard 0) none).1 = SendOutcome.skipped ∧
    broadcast_sse (SseEvent.hideCard 0)
        [none, some { closed := true, queue := [], capacity := 2 }] =
      [SendOutcome.skipped, SendOutcome.crashed] := by decide

/-- C5 (code bug): the lifecycle moves backward.  `handler.rs::ready` has
no state guard: in a `Finished` session whose players are all still marked
ready, any valid `ready` call re-runs `start_game` and the state returns
to `Running`. -/
theorem claim_C5 :
    (let A : Player := { name := "A", points := 3, turn := false, ready := true, sender := none }
     let B : Player := { name := "B", points := 2, turn := false, ready := true, sender := none }
     let m : Memory := { id := "s", players := [("ta", A), ("tb", B)],
                         state := GameState.Finished, cards := [], current_turn := 0 }
     (ready m "ta").1.state = GameState.Running ∧
     (ready m "ta").2 = Except.ok "Started") := by decide

/-- C6 (code bug): `join` in the Lobby never rejects a duplicate display
name.  With a player named "Alice" already in the roster, joining as
"Alice" succeeds with a fresh token and the roster ends with two players
named "Alice"; `Memory::add_new_player` (whose duplicate check compares
the name against the roster's *token* keys) accepts it as well.  The
`AlreadyRunning` guard for non-Lobby states does hold. -/
theorem claim_C6 :
    (let m : Memory := { id := "s", players := [("tok1", Player.new "Alice")],
                         state := GameState.Lobby, cards := [], current_turn := 0 }
     (join m "Alice" "tok2").2 = Except.ok "tok2" ∧
     (join m "Alice" "tok2").1.players.countP (fun kp => kp.2.name == "Alice") = 2 ∧
     getPlayer (join m "Alice" "tok2").1.players "tok2" = some (Player.new "Alice") ∧
     (Memory.add_new_player m "Alice" "tok2").2 = Except.ok "tok2" ∧
     (join { m with state := GameState.Running } "Alice" "tok2").2 =
       Except.error Rej.AlreadyRunning ∧
     (join { m with state := GameState.Finished } "Alice" "tok2").2 =
       Except.error Rej.AlreadyRunning) := by decide

/-- C8 (code bug): `handler.rs::game_message` looks the token up with
`.unwrap()`, so subscribing with a token not in the roster panics
(modelled by `none`) instead of failing `InvalidToken`; a successful
subscribe does attach a fresh bounded channel of capacity 2 replacing the
prior one, but pushes nothing onto it — no `InitState` snapshot. -/
theorem claim_C8 :
    (let alice : Player := { name := "Alice", points := 0, turn := false, ready := false,
                             sender := some { closed := true,
                                              queue := [SseEvent.turnUpdate true],
                                              capacity := 2 } }
     let m : Memory := { id := "s", players := [("t1", alice)],
                         state := GameState.Lobby, cards := [], current_turn := 0 }
     game_message m "zzz" = none ∧
     game_message m "t1" =
       some { m with players := [("t1", { alice with sender := some freshChannel })] } ∧
     freshChannel.queue = [] ∧ freshChannel.capacity = 2) := by decide

/-- C3: a second pick matching the pending first pick increments the
acting player by exactly one point, resolves both slots (unflipped,
gone) with a hide notification each, keeps the turn and the turn
index, finishes the game with a game-over notification exactly when
every card is resolved, and any pick on a Finished session fails
`NotYetRunning`. -/
theorem claim_C3 (m : Memory) (t : String) (p : Player) (i j : Nat) (ci cj : Card)
    (hp : getPlayer m.players t = some p)
    (hci : m.cards[i]? = some ci) (hcif : ci.flipped = false) (hcig : ci.gone = false)
    (hcj : m.cards[j]? = some cj) (hcjf : cj.flipped = true)
    (huniq : ∀ k ck, m.cards[k]? = some ck → ck.flipped = true → k = j)
    (himg : cj.img_path = ci.img_path) :
    ∃ m' evs,
      Memory.pick_card m i t = some (m', evs, Except.ok "Success") ∧
      getPlayer m'.players t = some { p with points := p.points + 1 } ∧
      m'.cards[i]? = some { img_path := ci.img_path, flipped := false, gone := true } ∧
      m'.cards[j]? = some { img_path := cj.img_path, flipped := false, gone := true } ∧
      SseEvent.hideCard i ∈ evs ∧ SseEvent.hideCard j ∈ evs ∧
      m'.current_turn = m.current_turn ∧ m'.id = m.id ∧
      (m'.cards.all (fun c => c.gone) = true →
        m'.state = GameState.Finished ∧ SseEvent.gameOver GameState.Finished ∈ evs) ∧
      (m'.cards.all (fun c => c.gone) = false → m'.state = m.state) ∧
      (∀ m2 : Memory, m2.state = GameState.Finished → ∀ k tk,
        handler_pick m2 k tk = (m2, Except.error Rej.NotYetRunning, [])) := by
  have hij : i ≠ j := by
    intro h
    rw [h, hcj] at hci
    injection hci with hcc
    rw [← hcc, hcjf] at hcif
    exact absurd hcif (by simp)
  have hilt : i < m.cards.length := (List.getElem?_eq_some.mp hci).1
  have hfind : m.cards.find? (fun c => c.flipped) = some cj :=
    find?_flipped_of_unique m.cards j cj hcj hcjf huniq
  have hbeq : (ci.img_path == cj.img_path) = true := beq_iff_eq.mpr himg.symm
  have hc1i : (m.cards.set i { img_path := ci.img_path, flipped := true, gone := false })[i]? =
      some { img_path := ci.img_path, flipped := true, gone := false } :=
    List.getElem?_set_eq_of_lt _ hilt
  have hc1j : (m.cards.set i { img_path := ci.img_path, flipped := true, gone := false })[j]? =
      some cj := by
    rw [List.getElem?_set_ne hij]
    exact hcj
  have hmemi : SseEvent.hideCard i ∈
      hideEventsFrom 0 (m.cards.set i { img_path := ci.img_path, flipped := true, gone := false }) := by
    have := mem_hideEventsFrom 0 _ i
      { img_path := ci.img_path, flipped := true, gone := false } hc1i rfl
    simpa using this
  have hmemj : SseEvent.hideCard j ∈
      hideEventsFrom 0 (m.cards.set i { img_path := ci.img_path, flipped := true, gone := false }) := by
    have := mem_hideEventsFrom 0 _ j cj hc1j hcjf
    simpa using this
  have hresi : (resolveFlippedCards
      (m.cards.set i { img_path := ci.img_path, flipped := true, gone := false }))[i]? =
      some { img_path := ci.img_path, flipped := false, gone := true } := by
    rw [resolveFlippedCards, List.getElem?_map, hc1i]
    simp
  have hresj : (resolveFlippedCards
      (m.cards.set i { img_path := ci.img_path, flipped := true, gone := false }))[j]? =
      some { img_path := cj.img_path, flipped := false, gone := true } := by
    rw [resolveFlippedCards, List.getElem?_map, hc1j]
    simp [hcjf]
  have hhandler : ∀ m2 : Memory, m2.state = GameState.Finished → ∀ k tk,
      handler_pick m2 k tk = (m2, Except.error Rej.NotYetRunning, []) := by
    intro m2 h2 k tk
    simp [handler_pick, h2]
  cases hall : (resolveFlippedCards
      (m.cards.set i { img_path := ci.img_path, flipped := true, gone := false })).all
      (fun c => c.gone) with
  | true =>
    have hforall := List.all_eq_true.mp hall
    refine ⟨{ m with
        cards := resolveFlippedCards
          (m.cards.set i { img_path := ci.img_path, flipped := true, gone := false }),
        players := setPlayer m.players t { p with points := p.points + 1 },
        state := GameState.Finished },
      SseEvent.flipCard i ci.img_path ::
        (hideEventsFrom 0 (m.cards.set i { img_path := ci.img_path, flipped := true, gone := false }) ++
         [SseEvent.gameOver GameState.Finished]),
      ?_, getPlayer_setPlayer_self _ hp, hresi, hresj,
      List.mem_cons_of_mem _ (List.mem_append_left _ hmemi),
      List.mem_cons_of_mem _ (List.mem_append_left _ hmemj),
      rfl, rfl, fun _ => ⟨rfl, by simp⟩, fun hfalse => ?_, hhandler⟩
    · simp [Memory.pick_card, hfind, hci, hcif, hcig, hp, check_for_pair, hbeq]
      rw [if_pos hforall]
      exact ⟨rfl, rfl⟩
    · rw [hall] at hfalse
      cases hfalse
  | false =>
    have hnot : ¬ ∀ x ∈ resolveFlippedCards
        (m.cards.set i { img_path := ci.img_path, flipped := true, gone := false }),
        x.gone = true := by
      intro hforall
      rw [List.all_eq_true.mpr hforall] at hall
      cases hall
    refine ⟨{ m with
        cards := resolveFlippedCards
          (m.cards.set i { img_path := ci.img_path, flipped := true, gone := false }),
        players := setPlayer m.players t { p with points := p.points + 1 } },
      SseEvent.flipCard i ci.img_path ::
        hideEventsFrom 0 (m.cards.set i { img_path := ci.img_path, flipped := true, gone := false }),
      ?_, getPlayer_setPlayer_self _ hp, hresi, hresj,
      List.mem_cons_of_mem _ hmemi,
      List.mem_cons_of_mem _ hmemj,
      rfl, rfl, fun htrue => ?_, fun _ => rfl, hhandler⟩
    · simp [Memory.pick_card, hfind, hci, hcif, hcig, hp, check_for_pair, hbeq]
      rw [if_neg hnot]
      exact ⟨rfl, rfl⟩
    · rw [hall] at htrue
      cases htrue

/-- C3 witness: on a two-card board with equal images and the second
card pending, picking the first card matches, scores, resolves both
slots, keeps the turn and finishes the game. -/
theorem claim_C3_witness :
    ∃ m' evs,
      Memory.pick_card c3Session 0 "t" = some (m', evs, Except.ok "Success") ∧
      getPlayer m'.players "t" = some { c3Player with points := c3Player.points + 1 } ∧
      m'.cards[0]? = some { img_path := c3CardA.img_path, flipped := false, gone := true } ∧
      m'.cards[1]? = some { img_path := c3CardB.img_path, flipped := false, gone := true } ∧
      SseEvent.hideCard 0 ∈ evs ∧ SseEvent.hideCard 1 ∈ evs ∧
      m'.current_turn = c3Session.current_turn ∧ m'.id = c3Session.id ∧
      (m'.cards.all (fun c => c.gone) = true →
        m'.state = GameState.Finished ∧ SseEvent.gameOver GameState.Finished ∈ evs) ∧
      (m'.cards.all (fun c => c.gone) = false → m'.state = c3Session.state) ∧
      (∀ m2 : Memory, m2.state = GameState.Finished → ∀ k tk,
        handler_pick m2 k tk = (m2, Except.error Rej.NotYetRunning, [])) :=
  claim_C3 c3Session "t" c3Player 0 1 c3CardA c3CardB (by decide) (by decide) (by decide)
    (by decide) (by decide) (by decide)
    (by
      intro k ck hk hf
      match k with
      | 0 =>
        rw [show c3Session.cards[0]? = some c3CardA from rfl] at hk
        injection hk with h
        rw [← h] at hf
        exact absurd hf (by decide)
      | 1 => rfl
      | (n + 2) =>
        rw [show c3Session.cards[n + 2]? = (none : Option Card) from rfl] at hk
        cases hk)
    (by decide)

/-- C4: a second pick mismatching the pending first pick clears the
turn flag of the acting player, re-hides every card, advances the
turn index to (previous + 1) mod player_count, gives the player at
that position the turn, and iterating the advance player_count times
returns to the original index. -/
theorem claim_C4 (m : Memory) (t : String) (p : Player) (it i j : Nat) (ci cj : Card)
    (hp : getPlayer m.players t = some p)
    (hpi : m.players[it]? = some (t, p))
    (hci : m.cards[i]? = some ci) (hcif : ci.flipped = false) (hcig : ci.gone = false)
    (hcj : m.cards[j]? = some cj) (hcjf : cj.flipped = true)
    (huniq : ∀ k ck, m.cards[k]? = some ck → ck.flipped = true → k = j)
    (himg : cj.img_path ≠ ci.img_path) :
    ∃ m' evs,
      Memory.pick_card m i t = some (m', evs, Except.ok "Success") ∧
      m'.current_turn = nextIdx m.current_turn m.players.length ∧
      m'.players.length = m.players.length ∧
      (∃ kp, m'.players[m'.current_turn]? = some kp ∧ kp.2.turn = true) ∧
      (it ≠ nextIdx m.current_turn m.players.length →
        m'.players[it]? = some (t, { p with turn := false })) ∧
      (∀ (k : Nat) (c' : Card), m'.cards[k]? = some c' → c'.flipped = false) ∧
      (∀ (k : Nat) (c c' : Card),
        m.cards[k]? = some c → m'.cards[k]? = some c' → c'.gone = c.gone) ∧
      (∀ c n : Nat, c < n → (fun x => nextIdx x n)^[n] c = c) := by
  have hij : i ≠ j := by
    intro h
    rw [h, hcj] at hci
    injection hci with hcc
    rw [← hcc, hcjf] at hcif
    exact absurd hcif (by simp)
  have hilt : i < m.cards.length := (List.getElem?_eq_some.mp hci).1
  have hitlt : it < m.players.length := (List.getElem?_eq_some.mp hpi).1
  have hN : 0 < m.players.length := Nat.lt_of_le_of_lt (Nat.zero_le it) hitlt
  have hNne : m.players.length ≠ 0 := Nat.pos_iff_ne_zero.mp hN
  have hfind : m.cards.find? (fun c => c.flipped) = some cj :=
    find?_flipped_of_unique m.cards j cj hcj hcjf huniq
  have hbeq : (ci.img_path == cj.img_path) = false :=
    beq_eq_false_iff_ne.mpr (Ne.symm himg)
  have hidxlt : nextIdx m.current_turn m.players.length < m.players.length :=
    Nat.mod_lt _ hN
  refine ⟨{ m with
      cards := (m.cards.set i { img_path := ci.img_path, flipped := true, gone := false }).map
        (fun c => { c with flipped := false }),
      players := setNthTurn (setPlayer m.players t { p with turn := false })
        (nextIdx m.current_turn m.players.length),
      current_turn := nextIdx m.current_turn m.players.length },
    [SseEvent.flipCard i ci.img_path],
    ?_, rfl, ?_, ?_, ?_, ?_, ?_, fun c n hc => iterate_nextIdx n c hc⟩
  · simp [Memory.pick_card, hfind, hci, hcif, hcig, hp, check_for_pair, hbeq,
      Memory.next_turn, length_setPlayer, hNne]
  · rw [length_setNthTurn, length_setPlayer]
  · have hlt1 : nextIdx m.current_turn m.players.length <
        (setPlayer m.players t { p with turn := false }).length := by
      rw [length_setPlayer]
      exact hidxlt
    have h1 : (setPlayer m.players t { p with turn := false })[nextIdx m.current_turn
        m.players.length]? = some ((setPlayer m.players t { p with turn := false }).get
        ⟨nextIdx m.current_turn m.players.length, hlt1⟩) := by
      rw [List.getElem?_eq_getElem hlt1]
      simp [List.get_eq_getElem]
    refine ⟨(((setPlayer m.players t { p with turn := false }).get
        ⟨nextIdx m.current_turn m.players.length, hlt1⟩).1,
      { ((setPlayer m.players t { p with turn := false }).get
        ⟨nextIdx m.current_turn m.players.length, hlt1⟩).2 with turn := true }), ?_, rfl⟩
    show (setNthTurn (setPlayer m.players t { p with turn := false })
        (nextIdx m.current_turn m.players.length))[nextIdx m.current_turn
        m.players.length]? = _
    rw [getElem?_setNthTurn, h1]
    simp
  · intro hne
    show (setNthTurn (setPlayer m.players t { p with turn := false })
        (nextIdx m.current_turn m.players.length))[it]? = _
    rw [getElem?_setNthTurn, getElem?_setPlayer, hpi]
    simp [hne]
  · intro k c' h
    simp only [List.getElem?_map] at h
    obtain ⟨c0, _, hc0⟩ := Option.map_eq_some'.mp h
    rw [← hc0]
  · intro k c c' hk hk'
    rw [List.getElem?_map] at hk'
    by_cases hki : k = i
    · subst hki
      rw [hci] at hk
      injection hk with hk
      rw [List.getElem?_set_eq_of_lt _ hilt] at hk'
      obtain ⟨c0, hc0, hc0'⟩ := Option.map_eq_some'.mp hk'
      injection hc0 with hc0
      rw [← hc0', ← hc0, ← hk, hcig]
    · rw [List.getElem?_set_ne (fun h => hki h.symm), hk] at hk'
      obtain ⟨c0, hc0, hc0'⟩ := Option.map_eq_some'.mp hk'
      injection hc0 with hc0
      rw [← hc0', ← hc0]

/-- C4 witness: with two players and a pending first pick of a
different image, picking the mismatching card clears the acting
player, advances the index by one modulo the player count and
re-hides the cards. -/
theorem claim_C4_witness :
    ∃ m' evs,
      Memory.pick_card c4Session 1 "ta" = some (m', evs, Except.ok "Success") ∧
      m'.current_turn = nextIdx c4Session.current_turn c4Session.players.length ∧
      m'.players.length = c4Session.players.length ∧
      (∃ kp, m'.players[m'.current_turn]? = some kp ∧ kp.2.turn = true) ∧
      (0 ≠ nextIdx c4Session.current_turn c4Session.players.length →
        m'.players[0]? = some ("ta", { c4PlayerA with turn := false })) ∧
      (∀ (k : Nat) (c' : Card), m'.cards[k]? = some c' → c'.flipped = false) ∧
      (∀ (k : Nat) (c c' : Card),
        c4Session.cards[k]? = some c → m'.cards[k]? = some c' → c'.gone = c.gone) ∧
      (∀ c n : Nat, c < n → (fun x => nextIdx x n)^[n] c = c) :=
  claim_C4 c4Session "ta" c4PlayerA 0 1 0 c4CardY c4CardX (by decide) (by decide)
    (by decide) (by decide) (by decide) (by decide) (by decide)
    (by
      intro k ck hk hf
      match k with
      | 0 => rfl
      | 1 =>
        rw [show c4Session.cards[1]? = some c4CardY from rfl] at hk
        injection hk with h
        rw [← h] at hf
        exact absurd hf (by decide)
      | (n + 2) =>
        rw [show c4Session.cards[n + 2]? = (none : Option Card) from rfl] at hk
        cases hk)
    (by decide)

/-- C7: while the session is Running and the caller holds a valid token
with the turn flag, a pick of an out-of-range slot fails `InvalidCard` and
a pick of an already flipped or already resolved card fails
`AlreadyFlipped`; in both cases the session is unchanged and no event is
emitted. -/
theorem claim_C7 (m : Memory) (t : String) (p : Player) (i : Nat)
    (hs : m.state = GameState.Running) (hp : getPlayer m.players t = some p)
    (ht : p.turn = true) :
    (m.cards[i]? = none →
      Memory.pick_card m i t = some (m, [], Except.error Rej.InvalidCard)) ∧
    (∀ c, m.cards[i]? = some c → (c.flipped || c.gone) = true →
      Memory.pick_card m i t = some (m, [], Except.error Rej.AlreadyFlipped)) := by
  constructor
  · intro h
    simp [Memory.pick_card, h]
  · intro c hc hfg
    simp [Memory.pick_card, hc, hfg]

/-- C7 witness: out-of-range slot 5 fails `InvalidCard`; flipped slot 0 and
resolved slot 1 fail `AlreadyFlipped`; the session is unchanged. -/
theorem claim_C7_witness :
    Memory.pick_card c7Session 5 "t" = some (c7Session, [], Except.error Rej.InvalidCard) ∧
    Memory.pick_card c7Session 0 "t" = some (c7Session, [], Except.error Rej.AlreadyFlipped) ∧
    Memory.pick_card c7Session 1 "t" = some (c7Session, [], Except.error Rej.AlreadyFlipped) :=
  ⟨(claim_C7 c7Session "t" c7Player 5 rfl (by decide) rfl).1 (by decide),
   (claim_C7 c7Session "t" c7Player 0 rfl (by decide) rfl).2
     { img_path := "x", flipped := true, gone := false } (by decide) (by decide),
   (claim_C7 c7Session "t" c7Player 1 rfl (by decide) rfl).2
     { img_path := "y", flipped := false, gone := true } (by decide) (by decide)⟩

end MemoryBackend
